import Mathlib

/-!
A shallow embedding of the CHIP-8 emulator core of src/1.py.

The Python class Chip8 keeps its whole machine state in instance fields;
here the state is the structure Chip8 below.  Python list indexing is
modelled faithfully, including negative-index wraparound and the
IndexError exception raised for out-of-range indices: accesses and
assignments return an Except value whose error case stands for a raised
IndexError.  The method emulate_cycle becomes a pure step function from a
state to Except PyError Chip8; load_rom is modelled with the file already
read into a byte list (the file read itself is I/O glue outside the core).
Console printing (the unknown-opcode message and the BEEP line) has no
effect on machine state and is not modelled.
-/

/-- The only exception the modelled code can raise: a Python IndexError
from a list access or assignment with an out-of-range index. -/
inductive PyError where
  | indexError
deriving DecidableEq, Repr

/-- Python list index resolution: an index i into a list of length len is
valid when 0 <= i < len, or when -len <= i < 0 in which case it denotes
position i + len (negative-index wraparound).  Returns the resolved
nonnegative position, or none for an IndexError. -/
def pyIndex (len : Nat) (i : Int) : Option Nat :=
  if 0 ≤ i ∧ i < (len : Int) then some i.toNat
  else if -(len : Int) ≤ i ∧ i < 0 then some (i + (len : Int)).toNat
  else none

/-- Python list read xs[i]. -/
def pyGet (xs : List Nat) (i : Int) : Except PyError Nat :=
  match pyIndex xs.length i with
  | some j => .ok (xs.getD j 0)
  | none => .error .indexError

/-- Python list assignment xs[i] = v. -/
def pySet (xs : List Nat) (i : Int) (v : Nat) : Except PyError (List Nat) :=
  match pyIndex xs.length i with
  | some j => .ok (xs.set j v)
  | none => .error .indexError

/-- CHIP8_FONTSET of src/1.py: 16 glyphs of 5 bytes each. -/
def CHIP8_FONTSET : List Nat :=
  [0xF0, 0x90, 0x90, 0x90, 0xF0,
   0x20, 0x60, 0x20, 0x20, 0x70,
   0xF0, 0x10, 0xF0, 0x80, 0xF0,
   0xF0, 0x10, 0xF0, 0x10, 0xF0,
   0x90, 0x90, 0xF0, 0x10, 0x10,
   0xF0, 0x80, 0xF0, 0x10, 0xF0,
   0xF0, 0x80, 0xF0, 0x90, 0xF0,
   0xF0, 0x10, 0x20, 0x40, 0x40,
   0xF0, 0x90, 0xF0, 0x90, 0xF0,
   0xF0, 0x90, 0xF0, 0x10, 0xF0,
   0xF0, 0x90, 0xF0, 0x90, 0x90,
   0xE0, 0x90, 0xE0, 0x90, 0xE0,
   0xF0, 0x80, 0x80, 0x80, 0xF0,
   0xE0, 0x90, 0x90, 0x90, 0xE0,
   0xF0, 0x80, 0xF0, 0x80, 0xF0,
   0xF0, 0x80, 0xF0, 0x80, 0x80]

/-- The machine state: the instance fields of the Python class Chip8.
Byte- and address-valued fields are Nat (in Python they are nonnegative
ints in every reachable state); the stack pointer sp is Int because the
code decrements it without a lower bound (RET on an empty stack drives it
negative); the timers are Int so that never-negative is a provable
property rather than one imposed by the type. -/
@[ext]
structure Chip8 where
  memory : List Nat
  v : List Nat
  i : Nat
  pc : Nat
  gfx : List Nat
  delay_timer : Int
  sound_timer : Int
  stack : List Nat
  sp : Int
  keys : List Nat
  draw_flag : Bool
deriving DecidableEq, Repr

/-- Chip8.__init__: 4096 zeroed memory bytes with the fontset copied into
memory[0:80], zeroed registers and framebuffer, PC = 0x200, SP = 0. -/
def initChip8 : Chip8 where
  memory := CHIP8_FONTSET ++ List.replicate (4096 - 80) 0
  v := List.replicate 16 0
  i := 0
  pc := 0x200
  gfx := List.replicate (64 * 32) 0
  delay_timer := 0
  sound_timer := 0
  stack := List.replicate 16 0
  sp := 0
  keys := List.replicate 16 0
  draw_flag := false

/-- The write loop of Chip8.load_rom: for idx, byte in enumerate(rom):
memory[base + idx] = byte.  Stops with IndexError as soon as an
assignment index is out of range, exactly as Python does. -/
def loadBytes (mem : List Nat) (base : Nat) : List Nat → Except PyError (List Nat)
  | [] => .ok mem
  | b :: rest =>
    match pySet mem (base : Int) b with
    | .ok mem' => loadBytes mem' (base + 1) rest
    | .error e => .error e

/-- Chip8.load_rom with the ROM file already read into the byte list rom:
copies rom into memory starting at 0x200.  There is no length check in
the source; an oversized ROM runs the write loop into an IndexError. -/
def load_rom (rom : List Nat) (s : Chip8) : Except PyError Chip8 :=
  match loadBytes s.memory 0x200 rom with
  | .ok mem' => .ok { s with memory := mem' }
  | .error e => .error e

/-- The fetch of Chip8.emulate_cycle: opcode =
memory[pc] << 8 | memory[pc + 1], big-endian. -/
def fetchOpcode (s : Chip8) : Except PyError Nat :=
  match pyGet s.memory (s.pc : Int) with
  | .error e => .error e
  | .ok hi =>
    match pyGet s.memory ((s.pc + 1 : Nat) : Int) with
    | .error e => .error e
    | .ok lo => .ok (hi <<< 8 ||| lo)

/-- First timer update of Chip8.emulate_cycle: if delay_timer > 0,
decrement it by one. -/
def tickDelay (s : Chip8) : Chip8 :=
  if 0 < s.delay_timer then { s with delay_timer := s.delay_timer - 1 } else s

/-- Second timer update of Chip8.emulate_cycle: if sound_timer > 0,
decrement it by one.  (When sound_timer is exactly 1 the code also prints
BEEP, which has no state effect.) -/
def tickSound (s : Chip8) : Chip8 :=
  if 0 < s.sound_timer then { s with sound_timer := s.sound_timer - 1 } else s

/-- The two sequential timer updates at the end of Chip8.emulate_cycle. -/
def updateTimers (s : Chip8) : Chip8 :=
  tickSound (tickDelay s)

/-- Chip8.emulate_cycle: fetch the opcode, advance PC by 2, dispatch
(only 0x00E0 and 0x00EE have handlers; every other opcode falls into the
else branch, which prints a message and changes nothing), then update the
timers.  The RET handler performs sp -= 1 followed by the Python read
stack[sp], so sp = 0 wraps to the negative index -1. -/
def emulate_cycle (s : Chip8) : Except PyError Chip8 :=
  match fetchOpcode s with
  | .error e => .error e
  | .ok opcode =>
    let s1 := { s with pc := s.pc + 2 }
    if opcode = 0x00E0 then
      .ok (updateTimers { s1 with gfx := List.replicate (64 * 32) 0, draw_flag := true })
    else if opcode = 0x00EE then
      match pyGet s1.stack (s1.sp - 1) with
      | .error e => .error e
      | .ok ret => .ok (updateTimers { s1 with sp := s1.sp - 1, pc := ret })
    else
      .ok (updateTimers s1)

/-- Chip8.set_keys: replace the keypad snapshot wholesale. -/
def set_keys (keys : List Nat) (s : Chip8) : Chip8 :=
  { s with keys := keys }

/-- A fresh machine whose next fetched opcode is 0x1234 (JP 0x234). -/
def jpState : Chip8 :=
  { initChip8 with memory := (initChip8.memory.set 0x200 0x12).set 0x201 0x34 }

/-- A fresh machine whose next fetched opcode is 0x5FFF, an opcode shape
outside the instruction table, and whose delay timer is 7. -/
def unknownOpState : Chip8 :=
  { initChip8 with
      memory := (initChip8.memory.set 0x200 0x5F).set 0x201 0xFF,
      delay_timer := 7 }

/-- A fresh machine whose next fetched opcode is 0x00EE (RET) with SP = 0
(empty stack) and a recognizable value in the last stack slot. -/
def retEmptyStackState : Chip8 :=
  { initChip8 with
      memory := initChip8.memory.set 0x201 0xEE,
      stack := initChip8.stack.set 15 0xABC }

/-- A machine whose next fetched opcode is 0x00EE (RET) with SP already
driven down to -16 by sixteen earlier returns. -/
def retBottomState : Chip8 :=
  { initChip8 with
      memory := initChip8.memory.set 0x201 0xEE,
      sp := -16 }

/-- A fresh machine whose next fetched opcode is 0xF10A (the wait-for-key
instruction LD V1,K); no key in the keypad snapshot is pressed. -/
def waitKeyState : Chip8 :=
  { initChip8 with memory := (initChip8.memory.set 0x200 0xF1).set 0x201 0x0A }

/-- A fresh machine whose next fetched opcode is 0x00E0 (CLS) and whose
framebuffer has a pixel set. -/
def clsState : Chip8 :=
  { initChip8 with
      memory := initChip8.memory.set 0x201 0xE0,
      gfx := initChip8.gfx.set 100 1 }

/-- A fresh machine with delay_timer = 5 and sound_timer = 1; the next
fetched opcode is 0x0000 (unhandled). -/
def timerDemoState : Chip8 :=
  { initChip8 with delay_timer := 5, sound_timer := 1 }

/-- The state reached from timerDemoState by one step: PC advanced past
the unhandled opcode and both timers decremented. -/
def timerDemoResult : Chip8 :=
  { initChip8 with pc := 0x202, delay_timer := 4, sound_timer := 0 }

/-- A nonnegative in-range index resolves to itself and reads the
element at that position. -/
theorem pyGet_nat_lt {xs : List Nat} {i : Nat} (h : i < xs.length) :
    pyGet xs (i : Int) = .ok (xs.getD i 0) := by
  have h0 : (0 : Int) ≤ (i : Int) := Int.ofNat_nonneg i
  have h1 : (i : Int) < (xs.length : Int) := by exact_mod_cast h
  simp [pyGet, pyIndex, h0, h1]

/-- A nonnegative out-of-range index raises IndexError. -/
theorem pyGet_nat_ge {xs : List Nat} {i : Nat} (h : xs.length ≤ i) :
    pyGet xs (i : Int) = .error .indexError := by
  have h1 : ¬ ((i : Int) < (xs.length : Int)) := by exact_mod_cast Nat.not_lt.mpr h
  have h2 : ¬ ((i : Int) < 0) := by omega
  simp [pyGet, pyIndex, h1, h2]

/-- A negative index no smaller than -len wraps around to position
i + len. -/
theorem pyGet_neg {xs : List Nat} {i : Int} (h1 : -(xs.length : Int) ≤ i) (h2 : i < 0) :
    pyGet xs i = .ok (xs.getD (i + (xs.length : Int)).toNat 0) := by
  have h3 : ¬ (0 ≤ i ∧ i < (xs.length : Int)) := by omega
  simp [pyGet, pyIndex, h3, h1, h2]

/-- A negative index below -len raises IndexError. -/
theorem pyGet_neg_oob {xs : List Nat} {i : Int} (h : i < -(xs.length : Int)) :
    pyGet xs i = .error .indexError := by
  have h1 : ¬ (0 ≤ i ∧ i < (xs.length : Int)) := by omega
  have h2 : ¬ (-(xs.length : Int) ≤ i) := by omega
  simp [pyGet, pyIndex, h1, h2]

/-- A nonnegative in-range assignment updates the element in place. -/
theorem pySet_nat_lt {xs : List Nat} {i : Nat} {b : Nat} (h : i < xs.length) :
    pySet xs (i : Int) b = .ok (xs.set i b) := by
  have h0 : (0 : Int) ≤ (i : Int) := Int.ofNat_nonneg i
  have h1 : (i : Int) < (xs.length : Int) := by exact_mod_cast h
  simp [pySet, pyIndex, h0, h1]

/-- A nonnegative out-of-range assignment raises IndexError. -/
theorem pySet_nat_ge {xs : List Nat} {i : Nat} {b : Nat} (h : xs.length ≤ i) :
    pySet xs (i : Int) b = .error .indexError := by
  have h1 : ¬ ((i : Int) < (xs.length : Int)) := by exact_mod_cast Nat.not_lt.mpr h
  have h2 : ¬ ((i : Int) < 0) := by omega
  simp [pySet, pyIndex, h1, h2]

/-- updateTimers only rewrites the two timer fields. -/
theorem updateTimers_eq (s : Chip8) :
    updateTimers s = { s with
      delay_timer := if 0 < s.delay_timer then s.delay_timer - 1 else s.delay_timer,
      sound_timer := if 0 < s.sound_timer then s.sound_timer - 1 else s.sound_timer } := by
  unfold updateTimers tickDelay tickSound
  split_ifs <;> simp_all

/-- When PC + 1 is in bounds, the fetch reads both bytes and combines
them big-endian. -/
theorem fetchOpcode_ok {s : Chip8} (h : s.pc + 1 < s.memory.length) :
    fetchOpcode s = .ok (s.memory.getD s.pc 0 <<< 8 ||| s.memory.getD (s.pc + 1) 0) := by
  unfold fetchOpcode
  rw [pyGet_nat_lt (by omega), pyGet_nat_lt h]

/-- When PC + 1 is out of bounds, the fetch raises IndexError: either at
memory[pc] (when pc itself is out of range) or at memory[pc + 1]. -/
theorem fetchOpcode_err {s : Chip8} (h : s.memory.length ≤ s.pc + 1) :
    fetchOpcode s = .error .indexError := by
  unfold fetchOpcode
  rcases Nat.lt_or_ge s.pc s.memory.length with hlt | hge
  · rw [pyGet_nat_lt hlt, pyGet_nat_ge h]
  · rw [pyGet_nat_ge hge]

/-- A step whose fetched opcode is neither 0x00E0 nor 0x00EE takes the
else branch: it prints the unknown-opcode message, and the only state
changes are the PC advance and the timer updates. -/
theorem emulate_cycle_unknown {s : Chip8} (h : s.pc + 1 < s.memory.length)
    (h0 : s.memory.getD s.pc 0 <<< 8 ||| s.memory.getD (s.pc + 1) 0 ≠ 0x00E0)
    (h1 : s.memory.getD s.pc 0 <<< 8 ||| s.memory.getD (s.pc + 1) 0 ≠ 0x00EE) :
    emulate_cycle s = .ok (updateTimers { s with pc := s.pc + 2 }) := by
  unfold emulate_cycle
  rw [fetchOpcode_ok h]
  simp only [if_neg h0, if_neg h1]

/-- A step whose fetched opcode is 0x00E0 clears the framebuffer, sets
the draw flag, advances PC and updates the timers. -/
theorem emulate_cycle_cls {s : Chip8} (h : s.pc + 1 < s.memory.length)
    (he : s.memory.getD s.pc 0 <<< 8 ||| s.memory.getD (s.pc + 1) 0 = 0x00E0) :
    emulate_cycle s =
      .ok (updateTimers
        { s with pc := s.pc + 2, gfx := List.replicate (64 * 32) 0, draw_flag := true }) := by
  unfold emulate_cycle
  rw [fetchOpcode_ok h]
  simp only [if_pos he]

/-- A step whose fetched opcode is 0x00EE and whose stack read succeeds
decrements SP and jumps to the value read at the (Python-resolved)
position of stack[sp - 1]. -/
theorem emulate_cycle_ret {s : Chip8} {r : Nat} (h : s.pc + 1 < s.memory.length)
    (he : s.memory.getD s.pc 0 <<< 8 ||| s.memory.getD (s.pc + 1) 0 = 0x00EE)
    (hstk : pyGet s.stack (s.sp - 1) = .ok r) :
    emulate_cycle s = .ok (updateTimers { s with pc := r, sp := s.sp - 1 }) := by
  unfold emulate_cycle
  rw [fetchOpcode_ok h, he]
  norm_num
  rw [hstk]

/-- A step whose fetched opcode is 0x00EE and whose stack read raises
propagates the IndexError. -/
theorem emulate_cycle_ret_err {s : Chip8} (h : s.pc + 1 < s.memory.length)
    (he : s.memory.getD s.pc 0 <<< 8 ||| s.memory.getD (s.pc + 1) 0 = 0x00EE)
    (hstk : pyGet s.stack (s.sp - 1) = .error .indexError) :
    emulate_cycle s = .error .indexError := by
  unfold emulate_cycle
  rw [fetchOpcode_ok h, he]
  norm_num
  rw [hstk]

/-- Reading the position just overwritten. -/
theorem getD_set_self {l : List Nat} {i b : Nat} (h : i < l.length) :
    (l.set i b).getD i 0 = b := by
  simp [List.getD_eq_getElem?_getD, List.getElem?_set_self h]

/-- Reading a position other than the one overwritten. -/
theorem getD_set_ne {l : List Nat} {i j b : Nat} (h : i ≠ j) :
    (l.set i b).getD j 0 = l.getD j 0 := by
  simp [List.getD_eq_getElem?_getD, List.getElem?_set_ne h]

/-- The fontset constant holds 16 glyphs of 5 bytes. -/
theorem fontset_length : CHIP8_FONTSET.length = 80 := by rfl

/-- The constructed machine has the full 4096-byte memory. -/
theorem initChip8_memory_length : initChip8.memory.length = 4096 := by
  show (CHIP8_FONTSET ++ List.replicate (4096 - 80) 0).length = 4096
  rw [List.length_append, fontset_length, List.length_replicate]

/-- Every memory byte of the constructed machine above the fontset region
is zero. -/
theorem initChip8_memory_getD {j : Nat} (h1 : 80 ≤ j) (h2 : j < 4096) :
    initChip8.memory.getD j 0 = 0 := by
  have h3 : CHIP8_FONTSET.length ≤ j := by rw [fontset_length]; omega
  rw [initChip8, List.getD_eq_getElem?_getD, List.getElem?_append_right h3,
    fontset_length]
  rw [List.getElem?_replicate_of_lt (by omega)]
  rfl

/-- Overwriting a position strictly below the start of a take of the
next position yields an append of the prefix and the new element. -/
theorem set_take_succ {l : List Nat} {i b : Nat} (h : i < l.length) :
    (l.set i b).take (i + 1) = l.take i ++ [b] := by
  have hlen : (l.take i).length = i := by
    rw [List.length_take]; omega
  rw [List.set_eq_take_cons_drop b h]
  calc (l.take i ++ b :: l.drop (i + 1)).take (i + 1)
      = (l.take i ++ b :: l.drop (i + 1)).take ((l.take i).length + 1) := by rw [hlen]
    _ = l.take i ++ (b :: l.drop (i + 1)).take 1 := List.take_append 1
    _ = l.take i ++ [b] := by simp

/-- Overwriting a position strictly below a drop leaves the drop
unchanged. -/
theorem set_drop_high {l : List Nat} {i b n : Nat} (h : i < n) :
    (l.set i b).drop n = l.drop n := by
  rw [List.drop_set, if_pos h]

/-- When the whole ROM fits, the write loop succeeds and replaces
exactly the slice of memory it writes. -/
theorem loadBytes_ok (rom : List Nat) : ∀ (mem : List Nat) (base : Nat),
    base + rom.length ≤ mem.length →
    loadBytes mem base rom = .ok (mem.take base ++ rom ++ mem.drop (base + rom.length)) := by
  induction rom with
  | nil =>
    intro mem base h
    simp [loadBytes]
  | cons b rest ih =>
    intro mem base h
    simp only [List.length_cons] at h
    have hb : base < mem.length := by omega
    have step : loadBytes mem base (b :: rest) = loadBytes (mem.set base b) (base + 1) rest := by
      simp only [loadBytes]
      rw [pySet_nat_lt hb]
    have hrec := ih (mem.set base b) (base + 1)
      (by rw [List.length_set]; omega)
    rw [step, hrec, set_take_succ hb, set_drop_high (by omega)]
    have harith : base + 1 + rest.length = base + (rest.length + 1) := by omega
    rw [harith]
    simp [List.append_assoc]

/-- When the ROM does not fit, the write loop runs the write index up to
the end of memory and raises IndexError there. -/
theorem loadBytes_err (rom : List Nat) : ∀ (mem : List Nat) (base : Nat),
    base ≤ mem.length → mem.length < base + rom.length →
    loadBytes mem base rom = .error .indexError := by
  induction rom with
  | nil =>
    intro mem base h1 h2
    simp only [List.length_nil] at h2
    omega
  | cons b rest ih =>
    intro mem base h1 h2
    simp only [List.length_cons] at h2
    rcases Nat.lt_or_ge base mem.length with hb | hb
    · have step : loadBytes mem base (b :: rest) = loadBytes (mem.set base b) (base + 1) rest := by
        simp only [loadBytes]
        rw [pySet_nat_lt hb]
      rw [step]
      exact ih (mem.set base b) (base + 1) (by rw [List.length_set]; omega)
        (by rw [List.length_set]; omega)
    · simp only [loadBytes]
      rw [pySet_nat_ge hb]

/-- Unknown-opcode branch, phrased on the fetched opcode value. -/
theorem emulate_cycle_unknown_of_fetch {s : Chip8} {op : Nat}
    (hf : fetchOpcode s = .ok op) (h0 : op ≠ 0x00E0) (h1 : op ≠ 0x00EE) :
    emulate_cycle s = .ok (updateTimers { s with pc := s.pc + 2 }) := by
  unfold emulate_cycle
  rw [hf]
  simp only [if_neg h0, if_neg h1]

/-- CLS branch, phrased on the fetched opcode value. -/
theorem emulate_cycle_cls_of_fetch {s : Chip8} (hf : fetchOpcode s = .ok 0x00E0) :
    emulate_cycle s =
      .ok (updateTimers
        { s with pc := s.pc + 2, gfx := List.replicate (64 * 32) 0, draw_flag := true }) := by
  unfold emulate_cycle
  rw [hf]
  norm_num

/-- RET branch with a succeeding stack read, phrased on the fetched
opcode value. -/
theorem emulate_cycle_ret_of_fetch {s : Chip8} {r : Nat}
    (hf : fetchOpcode s = .ok 0x00EE) (hstk : pyGet s.stack (s.sp - 1) = .ok r) :
    emulate_cycle s = .ok (updateTimers { s with pc := r, sp := s.sp - 1 }) := by
  unfold emulate_cycle
  rw [hf]
  norm_num
  rw [hstk]

/-- RET branch whose stack read raises, phrased on the fetched opcode
value. -/
theorem emulate_cycle_ret_err_of_fetch {s : Chip8}
    (hf : fetchOpcode s = .ok 0x00EE) (hstk : pyGet s.stack (s.sp - 1) = .error .indexError) :
    emulate_cycle s = .error .indexError := by
  unfold emulate_cycle
  rw [hf]
  norm_num
  rw [hstk]

/-- Fetch from a fresh machine whose program area got two bytes poked at
0x200 and 0x201. -/
theorem fetchOpcode_set2 {s : Chip8} {a b : Nat}
    (hmem : s.memory = (initChip8.memory.set 0x200 a).set 0x201 b)
    (hpc : s.pc = 0x200) :
    fetchOpcode s = .ok (a <<< 8 ||| b) := by
  have h512 : (0x200 : Nat) < initChip8.memory.length := by
    rw [initChip8_memory_length]; norm_num
  have h513 : (0x201 : Nat) < (initChip8.memory.set 0x200 a).length := by
    rw [List.length_set, initChip8_memory_length]; norm_num
  have hlen : s.pc + 1 < s.memory.length := by
    rw [hmem, hpc, List.length_set, List.length_set, initChip8_memory_length]; norm_num
  rw [fetchOpcode_ok hlen, hmem, hpc]
  rw [show (0x200 : Nat) + 1 = 0x201 from rfl]
  rw [getD_set_ne (show (0x201 : Nat) ≠ 0x200 by norm_num), getD_set_self h512,
    getD_set_self h513]

/-- Fetch from a fresh machine with a single byte poked at 0x201; the
byte at 0x200 is still 0 so the opcode equals the low byte. -/
theorem fetchOpcode_set1 {s : Chip8} {b : Nat}
    (hmem : s.memory = initChip8.memory.set 0x201 b)
    (hpc : s.pc = 0x200) :
    fetchOpcode s = .ok b := by
  have h513 : (0x201 : Nat) < initChip8.memory.length := by
    rw [initChip8_memory_length]; norm_num
  have hlen : s.pc + 1 < s.memory.length := by
    rw [hmem, hpc, List.length_set, initChip8_memory_length]; norm_num
  rw [fetchOpcode_ok hlen, hmem, hpc]
  rw [show (0x200 : Nat) + 1 = 0x201 from rfl]
  rw [getD_set_ne (show (0x201 : Nat) ≠ 0x200 by norm_num), getD_set_self h513,
    initChip8_memory_getD (by norm_num) (by norm_num)]
  rw [Nat.zero_shiftLeft, Nat.zero_or]

/-- The poked JP instruction is fetched as opcode 0x1234. -/
theorem jpState_fetch : fetchOpcode jpState = .ok 0x1234 := by
  have h := fetchOpcode_set2 (s := jpState) (a := 0x12) (b := 0x34) rfl rfl
  rw [h]
  rfl

/-- The poked unlisted opcode is fetched as 0x5FFF. -/
theorem unknownOpState_fetch : fetchOpcode unknownOpState = .ok 0x5FFF := by
  have h := fetchOpcode_set2 (s := unknownOpState) (a := 0x5F) (b := 0xFF) rfl rfl
  rw [h]
  rfl

/-- The poked wait-for-key instruction is fetched as 0xF10A. -/
theorem waitKeyState_fetch : fetchOpcode waitKeyState = .ok 0xF10A := by
  have h := fetchOpcode_set2 (s := waitKeyState) (a := 0xF1) (b := 0x0A) rfl rfl
  rw [h]
  rfl

/-- The poked RET instruction is fetched as 0x00EE on the empty-stack
machine. -/
theorem retEmptyStackState_fetch : fetchOpcode retEmptyStackState = .ok 0x00EE :=
  fetchOpcode_set1 (s := retEmptyStackState) (b := 0xEE) rfl rfl

/-- The poked RET instruction is fetched as 0x00EE on the sp = -16
machine. -/
theorem retBottomState_fetch : fetchOpcode retBottomState = .ok 0x00EE :=
  fetchOpcode_set1 (s := retBottomState) (b := 0xEE) rfl rfl

/-- The poked CLS instruction is fetched as 0x00E0. -/
theorem clsState_fetch : fetchOpcode clsState = .ok 0x00E0 :=
  fetchOpcode_set1 (s := clsState) (b := 0xE0) rfl rfl

/-- Fetch from a machine with untouched fresh memory at PC = 0x200 reads
two zero bytes: the opcode is 0x0000. -/
theorem fetchOpcode_init_zero {s : Chip8}
    (hmem : s.memory = initChip8.memory) (hpc : s.pc = 0x200) :
    fetchOpcode s = .ok 0 := by
  have hlen : s.pc + 1 < s.memory.length := by
    rw [hmem, hpc, initChip8_memory_length]; norm_num
  rw [fetchOpcode_ok hlen, hmem, hpc, show (0x200 : Nat) + 1 = 0x201 from rfl,
    initChip8_memory_getD (by norm_num) (by norm_num),
    initChip8_memory_getD (by norm_num) (by norm_num)]
  rfl

/-- The timer characterization of a single updateTimers application. -/
theorem step_timer_core (t : Chip8) :
    (updateTimers t).delay_timer =
      (if 0 < t.delay_timer then t.delay_timer - 1 else t.delay_timer) ∧
    (updateTimers t).sound_timer =
      (if 0 < t.sound_timer then t.sound_timer - 1 else t.sound_timer) ∧
    (0 ≤ t.delay_timer → 0 ≤ (updateTimers t).delay_timer) ∧
    (0 ≤ t.sound_timer → 0 ≤ (updateTimers t).sound_timer) := by
  obtain ⟨e1, e2⟩ :
      (updateTimers t).delay_timer =
        (if 0 < t.delay_timer then t.delay_timer - 1 else t.delay_timer) ∧
      (updateTimers t).sound_timer =
        (if 0 < t.sound_timer then t.sound_timer - 1 else t.sound_timer) := by
    rw [updateTimers_eq]
    exact ⟨rfl, rfl⟩
  refine ⟨e1, e2, ?_, ?_⟩
  · intro h
    rw [e1]
    split_ifs <;> omega
  · intro h
    rw [e2]
    split_ifs <;> omega

/-- One step from the timer demo machine: the zero opcode is unhandled,
PC advances, the delay timer drops 5 to 4 and the sound timer 1 to 0. -/
theorem timerDemo_step : emulate_cycle timerDemoState = .ok timerDemoResult := by
  rw [emulate_cycle_unknown_of_fetch (fetchOpcode_init_zero (s := timerDemoState) rfl rfl)
    (by norm_num) (by norm_num), updateTimers_eq]
  rfl

/-- Claim C1 (code divergence): the spec lists 35 opcode patterns, all of
which a step must dispatch to their own handlers; here the listed pattern
1nnn (JP addr, concretely opcode 0x1234, which should set PC to 0x234)
falls into the unknown-opcode else branch instead: the step returns
normally with PC advanced to 0x202 and every other component unchanged,
so the claim fails on the code. -/
theorem jp_opcode_falls_to_unknown_branch :
    emulate_cycle jpState = .ok { jpState with pc := 0x202 } := by
  rw [emulate_cycle_unknown_of_fetch jpState_fetch (by norm_num) (by norm_num),
    updateTimers_eq]
  rfl

/-- Claim C2, counterexample: on the unlisted opcode 0x5FFF the step does
not return any error value at all; it succeeds, with PC advanced by 2 and
the delay timer decremented from 7 to 6 (so the state is also not
unchanged-except-PC whenever a timer is running). -/
theorem unknown_opcode_no_error_counterexample :
    emulate_cycle unknownOpState = .ok { unknownOpState with pc := 0x202, delay_timer := 6 } := by
  rw [emulate_cycle_unknown_of_fetch unknownOpState_fetch (by norm_num) (by norm_num),
    updateTimers_eq]
  rfl

/-- Claim C2, amended: a step whose fetched opcode is outside the
instruction table (neither 0x00E0 nor 0x00EE) is not reported to the
caller: emulate_cycle prints a console message and returns ok; all
machine state other than PC (advanced by 2) and the two timers
(decremented when positive) is unchanged. -/
theorem unknown_opcode_returns_ok_and_advances_pc (s : Chip8)
    (hpc : s.pc + 1 < s.memory.length)
    (h0 : s.memory.getD s.pc 0 <<< 8 ||| s.memory.getD (s.pc + 1) 0 ≠ 0x00E0)
    (h1 : s.memory.getD s.pc 0 <<< 8 ||| s.memory.getD (s.pc + 1) 0 ≠ 0x00EE) :
    ∃ s', emulate_cycle s = .ok s' ∧ s'.memory = s.memory ∧ s'.v = s.v ∧ s'.i = s.i ∧
      s'.pc = s.pc + 2 ∧ s'.gfx = s.gfx ∧ s'.stack = s.stack ∧ s'.sp = s.sp ∧
      s'.keys = s.keys ∧ s'.draw_flag = s.draw_flag ∧
      s'.delay_timer = (if 0 < s.delay_timer then s.delay_timer - 1 else s.delay_timer) ∧
      s'.sound_timer = (if 0 < s.sound_timer then s.sound_timer - 1 else s.sound_timer) := by
  refine ⟨updateTimers { s with pc := s.pc + 2 }, emulate_cycle_unknown hpc h0 h1,
    ?_, ?_, ?_, ?_, ?_, ?_, ?_, ?_, ?_, ?_, ?_⟩ <;>
    rw [updateTimers_eq]

/-- Claim C2, witness: the amended statement applied to the concrete
0x5FFF machine. -/
theorem unknown_opcode_step_witness :
    ∃ s', emulate_cycle unknownOpState = .ok s' ∧
      s'.memory = unknownOpState.memory ∧ s'.v = unknownOpState.v ∧
      s'.i = unknownOpState.i ∧ s'.pc = unknownOpState.pc + 2 ∧
      s'.gfx = unknownOpState.gfx ∧ s'.stack = unknownOpState.stack ∧
      s'.sp = unknownOpState.sp ∧ s'.keys = unknownOpState.keys ∧
      s'.draw_flag = unknownOpState.draw_flag ∧
      s'.delay_timer = (if 0 < unknownOpState.delay_timer then unknownOpState.delay_timer - 1
        else unknownOpState.delay_timer) ∧
      s'.sound_timer = (if 0 < unknownOpState.sound_timer then unknownOpState.sound_timer - 1
        else unknownOpState.sound_timer) := by
  apply unknown_opcode_returns_ok_and_advances_pc
  · rw [show unknownOpState.pc = 0x200 from rfl,
      show unknownOpState.memory = (initChip8.memory.set 0x200 0x5F).set 0x201 0xFF from rfl,
      List.length_set, List.length_set, initChip8_memory_length]
    norm_num
  all_goals
    have hf := unknownOpState_fetch
    rw [fetchOpcode_ok (by
      rw [show unknownOpState.pc = 0x200 from rfl,
        show unknownOpState.memory = (initChip8.memory.set 0x200 0x5F).set 0x201 0xFF from rfl,
        List.length_set, List.length_set, initChip8_memory_length]
      norm_num)] at hf
    rw [Except.ok.inj hf]
    norm_num

/-- Claim C3 (code divergence): with SP = 0 the spec requires RET to fail
with StackUnderflow; the code instead performs sp -= 1 and then the
Python read stack[-1], which silently wraps to the LAST stack slot: the
step succeeds with SP = -1 and PC set to stack[15] (0xABC here). -/
theorem ret_on_empty_stack_wraps_to_negative_index :
    retEmptyStackState.sp = 0 ∧
    emulate_cycle retEmptyStackState =
      .ok { retEmptyStackState with pc := 0xABC, sp := -1 } := by
  refine ⟨rfl, ?_⟩
  have hstk : pyGet retEmptyStackState.stack (retEmptyStackState.sp - 1) = .ok 0xABC := by rfl
  rw [emulate_cycle_ret_of_fetch retEmptyStackState_fetch hstk, updateTimers_eq]
  rfl

/-- Claim C4, counterexample: a step can fail although PC + 1 is well
inside the 4096-byte memory: on the RET opcode with SP already at -16
the stack read raises IndexError, refuting the only-if direction of the
claimed equivalence at a concrete state (and the failure is a raised
IndexError, not a typed FetchOutOfBounds value). -/
theorem step_failure_below_bound_counterexample :
    retBottomState.pc + 1 < 4096 ∧ emulate_cycle retBottomState = .error .indexError := by
  constructor
  · rw [show retBottomState.pc = 0x200 from rfl]
    norm_num
  · have hstk : pyGet retBottomState.stack (retBottomState.sp - 1) =
        .error .indexError := by rfl
    exact emulate_cycle_ret_err_of_fetch retBottomState_fetch hstk

/-- Claim C4, amended: the FETCH itself fails exactly when PC + 1 is at
or past the end of the 4096-byte memory, and the failure is the raised
IndexError, not a typed FetchOutOfBounds result; when PC + 1 is in
bounds the fetch reads both bytes and combines them big-endian without
any out-of-bounds access.  (The whole step can still fail for an
in-bounds PC inside the RET handler, as the counterexample shows.) -/
theorem fetch_bounds_characterization (s : Chip8) (hlen : s.memory.length = 4096) :
    (s.pc + 1 < 4096 →
      fetchOpcode s = .ok (s.memory.getD s.pc 0 <<< 8 ||| s.memory.getD (s.pc + 1) 0)) ∧
    (4096 ≤ s.pc + 1 → fetchOpcode s = .error .indexError) :=
  ⟨fun h => fetchOpcode_ok (by omega), fun h => fetchOpcode_err (by omega)⟩

/-- Claim C4, witness: at the fresh machine the fetch is in bounds and
reads the two zero bytes at 0x200. -/
theorem fetch_bounds_witness : fetchOpcode initChip8 = .ok 0 := by
  have hpc : initChip8.pc = 0x200 := rfl
  have h := (fetch_bounds_characterization initChip8 initChip8_memory_length).1
    (by rw [hpc]; norm_num)
  rw [hpc, show (0x200 : Nat) + 1 = 0x201 from rfl,
    initChip8_memory_getD (by norm_num) (by norm_num),
    initChip8_memory_getD (by norm_num) (by norm_num)] at h
  exact h

/-- An oversized ROM drives the write loop of load_rom off the end of
memory, raising IndexError. -/
theorem load_rom_oversized_err (rom : List Nat) (s : Chip8)
    (hmem : s.memory.length = 4096) (hlen : 4096 - 0x200 < rom.length) :
    load_rom rom s = .error .indexError := by
  unfold load_rom
  rw [loadBytes_err rom s.memory 0x200 (by omega) (by omega)]

/-- Claim C5, counterexample: loading a 3585-byte ROM (one past the
4096 - 0x200 = 3584 limit) does not produce a typed ProgramTooLarge
value; the write loop runs off the end of memory and raises an untyped
IndexError. -/
theorem oversized_rom_counterexample :
    load_rom (List.replicate 3585 0) initChip8 = .error .indexError :=
  load_rom_oversized_err (List.replicate 3585 0) initChip8 initChip8_memory_length
    (by rw [List.length_replicate]; norm_num)

/-- Claim C5, amended: for every byte sequence longer than 4096 - 0x200,
load_rom fails by raising the untyped IndexError from the write loop
(there is no ProgramTooLarge error anywhere in the code); the failing
write is the one at index 4096, so no byte is ever written past the end
of memory. -/
theorem oversized_rom_raises_index_error (rom : List Nat) (s : Chip8)
    (hmem : s.memory.length = 4096) (hlen : 4096 - 0x200 < rom.length) :
    load_rom rom s = .error .indexError :=
  load_rom_oversized_err rom s hmem hlen

/-- Claim C5, witness: the amended statement applied to a 4000-byte ROM
and the fresh machine. -/
theorem oversized_rom_witness :
    load_rom (List.replicate 4000 1) initChip8 = .error .indexError :=
  oversized_rom_raises_index_error (List.replicate 4000 1) initChip8
    initChip8_memory_length (by rw [List.length_replicate]; norm_num)

/-- Claim C6: for every ROM that fits below 4096 - 0x200 bytes and every
machine state with full-sized memory, load_rom succeeds, mutates only
the memory field, and reading back memory[0x200 : 0x200 + len] yields
exactly the ROM. -/
theorem load_rom_roundtrip (rom : List Nat) (s : Chip8)
    (hmem : s.memory.length = 4096) (hlen : rom.length ≤ 4096 - 0x200) :
    ∃ mem', load_rom rom s = .ok { s with memory := mem' } ∧
      (mem'.drop 0x200).take rom.length = rom := by
  have h := loadBytes_ok rom s.memory 0x200 (by omega)
  refine ⟨s.memory.take 0x200 ++ rom ++ s.memory.drop (0x200 + rom.length), ?_, ?_⟩
  · unfold load_rom
    rw [h]
  · have htl : (s.memory.take 0x200).length = 0x200 := by
      rw [List.length_take]
      omega
    rw [List.append_assoc, List.drop_left' htl]
    exact List.take_left rom _

/-- Claim C6, witness: loading the three-byte ROM 1 2 3 into the fresh
machine and reading the slice back. -/
theorem load_rom_roundtrip_witness :
    ∃ mem', load_rom [1, 2, 3] initChip8 = .ok { initChip8 with memory := mem' } ∧
      (mem'.drop 0x200).take (List.length [1, 2, 3]) = [1, 2, 3] :=
  load_rom_roundtrip [1, 2, 3] initChip8 initChip8_memory_length (by norm_num)

/-- Claim C7: whenever a step returns a state, each timer has been
decremented by exactly one when it was positive and left unchanged when
it was not (in particular a zero timer stays zero), and a nonnegative
timer never becomes negative. -/
theorem step_decrements_timers (s s' : Chip8) (h : emulate_cycle s = .ok s') :
    s'.delay_timer = (if 0 < s.delay_timer then s.delay_timer - 1 else s.delay_timer) ∧
    s'.sound_timer = (if 0 < s.sound_timer then s.sound_timer - 1 else s.sound_timer) ∧
    (0 ≤ s.delay_timer → 0 ≤ s'.delay_timer) ∧
    (0 ≤ s.sound_timer → 0 ≤ s'.sound_timer) := by
  have key : ∀ t : Chip8, Except.ok (updateTimers t) = (Except.ok s' : Except PyError Chip8) →
      t.delay_timer = s.delay_timer → t.sound_timer = s.sound_timer →
      s'.delay_timer = (if 0 < s.delay_timer then s.delay_timer - 1 else s.delay_timer) ∧
      s'.sound_timer = (if 0 < s.sound_timer then s.sound_timer - 1 else s.sound_timer) ∧
      (0 ≤ s.delay_timer → 0 ≤ s'.delay_timer) ∧
      (0 ≤ s.sound_timer → 0 ≤ s'.sound_timer) := by
    intro t h3 h1 h2
    have h4 : s' = updateTimers t := (Except.ok.inj h3).symm
    rw [h4]
    have hc := step_timer_core t
    rw [h1, h2] at hc
    exact hc
  cases hf : fetchOpcode s with
  | error e =>
    have hcy : emulate_cycle s = .error e := by
      unfold emulate_cycle
      rw [hf]
    rw [hcy] at h
    exact Except.noConfusion h
  | ok op =>
    by_cases h0 : op = 0x00E0
    · subst h0
      rw [emulate_cycle_cls_of_fetch hf] at h
      exact key _ h rfl rfl
    · by_cases h1 : op = 0x00EE
      · subst h1
        cases hstk : pyGet s.stack (s.sp - 1) with
        | error e =>
          cases e
          rw [emulate_cycle_ret_err_of_fetch hf hstk] at h
          exact Except.noConfusion h
        | ok r =>
          rw [emulate_cycle_ret_of_fetch hf hstk] at h
          exact key _ h rfl rfl
      · rw [emulate_cycle_unknown_of_fetch hf h0 h1] at h
        exact key _ h rfl rfl

/-- Claim C7, witness: one step from delay_timer = 5, sound_timer = 1
reaches delay_timer = 4, sound_timer = 0. -/
theorem step_decrements_timers_witness :
    timerDemoResult.delay_timer = (if 0 < timerDemoState.delay_timer
      then timerDemoState.delay_timer - 1 else timerDemoState.delay_timer) ∧
    timerDemoResult.sound_timer = (if 0 < timerDemoState.sound_timer
      then timerDemoState.sound_timer - 1 else timerDemoState.sound_timer) ∧
    (0 ≤ timerDemoState.delay_timer → 0 ≤ timerDemoResult.delay_timer) ∧
    (0 ≤ timerDemoState.sound_timer → 0 ≤ timerDemoResult.sound_timer) :=
  step_decrements_timers timerDemoState timerDemoResult timerDemo_step

/-- Claim C8: a step whose fetched opcode is 0x00E0 (CLS) returns a
state whose 64 x 32 framebuffer is all zeroes and whose draw flag is
set. -/
theorem cls_clears_framebuffer (s : Chip8) (hpc : s.pc + 1 < s.memory.length)
    (hop : s.memory.getD s.pc 0 <<< 8 ||| s.memory.getD (s.pc + 1) 0 = 0x00E0) :
    ∃ s', emulate_cycle s = .ok s' ∧ s'.gfx = List.replicate (64 * 32) 0 ∧
      s'.draw_flag = true := by
  refine ⟨_, emulate_cycle_cls hpc hop, ?_, ?_⟩ <;> rw [updateTimers_eq]

/-- Claim C8, witness: CLS on the machine with a set pixel at position
100 of the framebuffer. -/
theorem cls_clears_framebuffer_witness :
    ∃ s', emulate_cycle clsState = .ok s' ∧ s'.gfx = List.replicate (64 * 32) 0 ∧
      s'.draw_flag = true := by
  have hlen : clsState.pc + 1 < clsState.memory.length := by
    rw [show clsState.pc = 0x200 from rfl,
      show clsState.memory = initChip8.memory.set 0x201 0xE0 from rfl,
      List.length_set, initChip8_memory_length]
    norm_num
  apply cls_clears_framebuffer clsState hlen
  have hf := clsState_fetch
  rw [fetchOpcode_ok hlen] at hf
  exact Except.ok.inj hf

/-- Claim C9 (code divergence): the wait-for-key instruction Fx0A is not
implemented at all: with opcode 0xF10A fetched and no key pressed in the
keypad snapshot, the step treats it as an unknown opcode — PC advances
by 2 immediately (instead of holding until a key press) and there is no
waiting flag in the machine state; the registers are unchanged. -/
theorem wait_key_opcode_ignored :
    waitKeyState.keys = List.replicate 16 0 ∧
    emulate_cycle waitKeyState = .ok { waitKeyState with pc := 0x202 } := by
  refine ⟨rfl, ?_⟩
  rw [emulate_cycle_unknown_of_fetch waitKeyState_fetch (by norm_num) (by norm_num),
    updateTimers_eq]
  rfl

/-- Claim C10: the step function is deterministic: two componentwise
equal states step to equal results; no randomness or hidden input enters
emulate_cycle. -/
theorem step_deterministic (s t : Chip8)
    (h1 : s.memory = t.memory) (h2 : s.v = t.v) (h3 : s.i = t.i) (h4 : s.pc = t.pc)
    (h5 : s.gfx = t.gfx) (h6 : s.delay_timer = t.delay_timer)
    (h7 : s.sound_timer = t.sound_timer) (h8 : s.stack = t.stack) (h9 : s.sp = t.sp)
    (h10 : s.keys = t.keys) (h11 : s.draw_flag = t.draw_flag) :
    emulate_cycle s = emulate_cycle t := by
  have hst : s = t := by
    ext1 <;> assumption
  rw [hst]

/-- Claim C10, witness: the determinism statement applied to the fresh
machine on both sides. -/
theorem step_deterministic_witness : emulate_cycle initChip8 = emulate_cycle initChip8 :=
  step_deterministic initChip8 initChip8 rfl rfl rfl rfl rfl rfl rfl rfl rfl rfl rfl
